import Mathlib

attribute [local semireducible] Rat.ofScientific Rat.mul Rat.add Rat.sub Rat.inv

/-!
Verification of the statistical comparison engine of the benchmarker action.

The Rust sources (src/bench.rs and src/main.rs) are embedded shallowly:

* `f64` values are modelled as exact rationals (`ℚ`); IEEE rounding is out of
  scope, but the IEEE special-value paths that decide control flow (division
  by zero producing NaN/infinity) are modelled explicitly by branches.
* Code that can panic (array indexing with an out-of-range or underflowing
  index, `IndexMap`/`Vec` `Index` on a missing key, byte-slicing of a short
  string, `assert_eq!`) is modelled with `Option`: `none` is a panic.
* `BTreeMap` / `IndexMap` values are modelled as association lists with
  unique keys, preserving iteration order; `BTreeSet` as a sorted,
  duplicate-free list built by ordered insertion.
* The markdown renderers are modelled at the level of the rows and cells
  they emit (which rows appear, with which numeric values, delta and glyph),
  not the formatted text: numeric formatting (`{:+6.2}`, `±√variance`
  rounding, `HumanReadable`) is display-only and no claim depends on it.
  The `GITHUB_REPOSITORY` environment variable read by the renderers only
  feeds the displayed link text, so it does not appear in the model.
-/

namespace Benchmarker

/-- One measured metric, from `struct BenchCounter` in src/bench.rs.
The data model requires `repetitions ≥ 1`; `value`, `variance` are `f64`
sample mean and sample variance, modelled as exact rationals. -/
structure BenchCounter where
  value : ℚ
  variance : ℚ
  repetitions : ℕ
  unit : String
deriving DecidableEq, Repr

/-- One benchmarked command, from `struct SingleBench` in src/bench.rs.
The `BTreeMap<String, BenchCounter>` is modelled as a key-unique
association list. -/
structure SingleBench where
  cmd : List String
  counters : List (String × BenchCounter)
deriving DecidableEq, Repr

/-- One full benchmark run, from `struct BenchData` in src/main.rs.
`bench_groups : IndexMap<String, Vec<SingleBench>>` is an insertion-ordered
map, modelled as an association list. -/
structure BenchData where
  commit_hash : String
  commit_timestamp : ℕ
  timestamp : ℕ
  arch : String
  os : String
  runner : String
  cpu_model : String
  bench_groups : List (String × List SingleBench)
deriving DecidableEq, Repr

/-- The exact Student's-t critical values for df 1..30,
`const T_TABLE95_1TO30` in src/bench.rs (entries transcribed verbatim,
including the 28th and 29th entries 2.045 and 2.048). -/
def T_TABLE95_1TO30 : List ℚ :=
  [12.706, 4.303, 3.182, 2.776, 2.571, 2.447, 2.365, 2.306, 2.262, 2.228,
   2.201, 2.179, 2.16, 2.145, 2.131, 2.12, 2.11, 2.101, 2.093, 2.086,
   2.08, 2.074, 2.069, 2.064, 2.06, 2.056, 2.052, 2.045, 2.048, 2.042]

/-- The critical values sampled every 10 df for df 31..120,
`const T_TABLE95_10S_10TO120` in src/bench.rs. -/
def T_TABLE95_10S_10TO120 : List ℚ :=
  [2.228, 2.086, 2.042, 2.021, 2.009, 2.0, 1.994, 1.99, 1.987, 1.984, 1.982, 1.98]

/-- `fn get_stat_score_95(df: u32) -> f64` from src/bench.rs.
For `df = 0` the Rust code computes `dfv - 1` on a `usize`, which underflows
and makes the array index panic (overflow panic in debug builds, an
out-of-bounds index in release builds); this is modelled as `none`.
For `1 ≤ df ≤ 30` the index `df - 1` is in bounds, for `31 ≤ df ≤ 120` the
index `df / 10 - 1` is in `[2, 11]`, so those lookups always succeed. -/
def get_stat_score_95 (df : ℕ) : Option ℚ :=
  if df = 0 then none
  else if df ≤ 30 then T_TABLE95_1TO30[df - 1]?
  else if df ≤ 120 then T_TABLE95_10S_10TO120[df / 10 - 1]?
  else some 1.96

/-- The critical value produced by a successful lookup (`0` as a dummy for
the panicking `df = 0` case). -/
def statScore (df : ℕ) : ℚ :=
  (get_stat_score_95 df).getD 0

/-- `BenchCounter::improvement_percentage` from src/bench.rs:
`((new.value - old.value) / new.value) * 100.0`.  Note the divisor is the
NEW value. -/
def improvement_percentage (old new : BenchCounter) : ℚ :=
  ((new.value - old.value) / new.value) * 100

/-- The degrees of freedom `df = old.repetitions + new.repetitions - 2`
(u32 arithmetic; truncated subtraction agrees with the source whenever
`old.repetitions + new.repetitions ≥ 2`, in particular on all data
satisfying the `repetitions ≥ 1` invariant). -/
def t_df (old new : BenchCounter) : ℕ :=
  old.repetitions + new.repetitions - 2

/-- The square of the pooled standard deviation `s` of
`BenchCounter::is_significant`:
`((n1 - 1.0) * s1_sqr + (n2 - 1.0) * s2_sqr) / df`. -/
def s_sqr (old new : BenchCounter) : ℚ :=
  (((old.repetitions : ℚ) - 1) * old.variance +
    ((new.repetitions : ℚ) - 1) * new.variance) / (t_df old new : ℚ)

/-- The square of the standard error `se = s * sqrt(1/n1 + 1/n2)` of
`BenchCounter::is_significant`. -/
def se_sqr (old new : BenchCounter) : ℚ :=
  s_sqr old new * (1 / (old.repetitions : ℚ) + 1 / (new.repetitions : ℚ))

/-- `BenchCounter::is_significant` from src/bench.rs.  The source compares
`t_statistic = |new.value - old.value| / se` against the table value; the
comparison is carried out here on squares so it stays inside `ℚ`
(`t > threshold ↔ t² > threshold²` for the nonnegative `t` and positive
threshold, proved as `is_significant_iff_t_test` below).  The IEEE special
paths of the source are mirrored by the branches:
* `df = 0` makes the table lookup panic (`none`), as in the source;
* a negative pooled variance would make `sqrt` return NaN, and `NaN > c`
  is false;
* a zero standard error makes `t = |Δ|/0.0` equal to `+∞` when `Δ ≠ 0`
  (so `t > c` holds) and NaN when `Δ = 0` (so it does not).
The source computes `s`, `se` and `t_statistic` before the table lookup,
but those float computations cannot panic, so hoisting the lookup is
behaviour-preserving. -/
def is_significant (old new : BenchCounter) : Option Bool :=
  (get_stat_score_95 (t_df old new)).map fun threshold =>
    if s_sqr old new < 0 then false
    else if se_sqr old new = 0 then decide (new.value - old.value ≠ 0)
    else decide ((new.value - old.value) ^ 2 / se_sqr old new > threshold ^ 2)

/-- Association-list lookup, the model of `BTreeMap::get` / `IndexMap::get`. -/
def lookupAssoc {α : Type} : List (String × α) → String → Option α
  | [], _ => none
  | (k, v) :: rest, key => if k = key then some v else lookupAssoc rest key

/-- `x.iter().find(|prev_bench| prev_bench.cmd == bench.cmd)` from
`render_markdown_raw`: the baseline row is matched by exact argv equality. -/
def findBench : List SingleBench → List String → Option SingleBench
  | [], _ => none
  | b :: rest, cmd => if b.cmd = cmd then some b else findBench rest cmd

/-- `counter.strip_prefix("cpu_core/").unwrap_or(counter)` from
`render_markdown_raw`, modelled on the character-list representation. -/
def stripPfx (p s : String) : String :=
  if p.data.isPrefixOf s.data then ⟨s.data.drop p.data.length⟩ else s

/-- Whether a string ends with the single character `/`. -/
def endsSlash (s : String) : Bool :=
  "/".data.isSuffixOf s.data

/-- Remove the final character of a string. -/
def dropLastChar (s : String) : String :=
  ⟨s.data.dropLast⟩

/-- The key under which `render_markdown_raw` looks up the baseline metric:
`counter.strip_prefix("cpu_core/").unwrap_or(counter).strip_suffix("/").unwrap_or(&counter)`.
Note the second `unwrap_or` falls back to the ORIGINAL `counter`, so the
prefix-stripping only survives when the prefix-stripped name still ends in
a slash. -/
def baselineKey (counter : String) : String :=
  let s := stripPfx "cpu_core/" counter
  if endsSlash s then dropLastChar s else counter

/-- Modelled from the spec's words for comparison with `baselineKey`: "the
counter name with the profiler namespace prefix (cpu_core/) and the
trailing / decoration stripped", i.e. both decorations removed whenever
present. -/
def specStrippedKey (counter : String) : String :=
  let s := stripPfx "cpu_core/" counter
  if endsSlash s then dropLastChar s else s

/-- The signed percentage delta of the raw dump (src/main.rs lines 169-181):
`+((data.value - prev.value) / prev.value * 100)` when the current value is
larger, `-((prev.value - data.value) / prev.value * 100)` otherwise.  The
divisor is the OLD (baseline) value. -/
def rawDelta (prev cur : ℚ) : ℚ :=
  if prev < cur then (cur - prev) / prev * 100 else -((prev - cur) / prev * 100)

/-- One cell of the raw-dump table: either an empty cell (counter absent
for this command) or the counter's sample together with the optional
percentage delta against the baseline (`none` renders as `n.a.` or, with
no baseline at all, as no delta).  Textual formatting (`±√variance`
rounding, units, `HumanReadable`) is display-only and not modelled. -/
inductive RawCell where
  | missing : RawCell
  | present : BenchCounter → Option ℚ → RawCell
deriving DecidableEq, Repr

/-- Lexicographic-by-code-point comparison of character lists, the order of
`BTreeSet<String>` (which for the ASCII counter names coincides with byte
order). -/
def listCharLt : List Char → List Char → Bool
  | [], [] => false
  | [], _ :: _ => true
  | _ :: _, [] => false
  | a :: as, b :: bs =>
    if a.toNat < b.toNat then true
    else if b.toNat < a.toNat then false
    else listCharLt as bs

/-- String comparison used for the sorted counter-name set. -/
def strLt (a b : String) : Bool := listCharLt a.data b.data

/-- Ordered duplicate-free insertion, the model of `BTreeSet::insert`. -/
def insertCounter (x : String) : List String → List String
  | [] => [x]
  | y :: ys =>
    if x = y then y :: ys
    else if strLt x y then x :: y :: ys
    else y :: insertCounter x ys

/-- The `available_counters` set of `render_markdown_raw`: the sorted union
of all counter names seen across a group's commands. -/
def availableCounters (benches : List SingleBench) : List String :=
  benches.foldl
    (fun acc b => (b.counters.map Prod.fst).foldl (fun a k => insertCounter k a) acc) []

/-- One cell of one command's row in the raw dump: the counter looked up in
the current bench, and the delta computed against the matched baseline
bench under `baselineKey`. -/
def rawCell (prevBench : Option SingleBench) (bench : SingleBench) (counter : String) :
    RawCell :=
  match lookupAssoc bench.counters counter with
  | none => .missing
  | some d =>
    match prevBench.bind fun pb => lookupAssoc pb.counters (baselineKey counter) with
    | none => .present d none
    | some pd => .present d (some (rawDelta pd.value d.value))

/-- The rows of one group of the raw dump: one row per command, one cell
per available counter, with the baseline bench matched by exact argv
equality. -/
def rawGroupRows (prevBenches : Option (List SingleBench)) (benches : List SingleBench) :
    List (List String × List RawCell) :=
  benches.map fun b =>
    (b.cmd, (availableCounters benches).map fun counter =>
      rawCell (prevBenches.bind fun l => findBench l b.cmd) b counter)

/-- `BenchData::render_markdown_raw` from src/main.rs, modelled as the table
structure it emits.  When a baseline is supplied the function first runs
`assert_eq!` on `arch`, `os`, `runner` and `cpu_model`; a mismatch panics
(`none`).  The header (full commit hashes, no slicing) and markdown layout
are display-only. -/
def render_markdown_raw (data : BenchData) (prev : Option BenchData) :
    Option (List (String × List (List String × List RawCell))) :=
  match prev with
  | some p =>
    if data.arch = p.arch ∧ data.os = p.os ∧ data.runner = p.runner ∧
        data.cpu_model = p.cpu_model then
      some (data.bench_groups.map fun g =>
        (g.1, rawGroupRows (lookupAssoc p.bench_groups g.1) g.2))
    else none
  | none =>
    some (data.bench_groups.map fun g => (g.1, rawGroupRows none g.2))

/-- `struct VersusOther` from src/main.rs: one baseline-comparison group of
the configuration. -/
structure VersusOther where
  measure : String
  command : String
  rows : List (String × ℕ)
deriving DecidableEq, Repr

/-- `struct Reference` from src/main.rs. -/
structure Reference where
  command : String
  index : ℕ
deriving DecidableEq, Repr

/-- `struct Compare` from src/main.rs: one self-comparison row. -/
structure Compare where
  measure : String
  before : Reference
  after : Reference
deriving DecidableEq, Repr

/-- The significance glyph of `BenchCounter::render_markdown_row`:
`worse` is the marker printed when the change is significant with a
positive percentage, `better` when significant with a nonpositive one,
`neutral` when not significant. -/
inductive Glyph where
  | worse : Glyph
  | better : Glyph
  | neutral : Glyph
deriving DecidableEq, Repr

/-- One rendered comparison row (name, the two values, glyph and
percentage), the data content of the row `render_markdown_row` writes. -/
structure RenderedRow where
  name : String
  beforeValue : ℚ
  afterValue : ℚ
  glyph : Glyph
  percentage : ℚ
deriving DecidableEq, Repr

/-- `BenchCounter::render_markdown_row` from src/bench.rs: computes the
percentage and the significance, then emits the row.  `is_significant`
can panic (`none`), which propagates. -/
def render_markdown_row (name : String) (old new : BenchCounter) : Option RenderedRow :=
  (is_significant old new).map fun sig =>
    let percentage := improvement_percentage old new
    ⟨name, old.value, new.value,
      if sig then (if percentage > 0 then .worse else .better) else .neutral,
      percentage⟩

/-- Outcome of resolving one comparison row: `panic` models the
`IndexMap`/`Vec` `Index` panics (unknown key or out-of-range index) and a
panicking `render_markdown_row`; `skip` models the `let ... else continue`
taken when the measure is absent from the resolved counters. -/
inductive RowOutcome where
  | panic : RowOutcome
  | skip : RowOutcome
  | row : RenderedRow → RowOutcome

/-- One row of `render_markdown_diff_pretty` (src/main.rs lines 263-278):
`before.bench_groups[&rows.command][row].counters.get(&rows.measure)` —
the group lookup and the index are panicking `Index` operations, only the
measure lookup is the skipping `let ... else continue`; then the same on
the `after` side, then the row is rendered. -/
def diffRowOutcome (before after : BenchData) (v : VersusOther) (name : String) (idx : ℕ) :
    RowOutcome :=
  match lookupAssoc before.bench_groups v.command with
  | none => .panic
  | some benches =>
    match benches[idx]? with
    | none => .panic
    | some b =>
      match lookupAssoc b.counters v.measure with
      | none => .skip
      | some bc =>
        match lookupAssoc after.bench_groups v.command with
        | none => .panic
        | some benches2 =>
          match benches2[idx]? with
          | none => .panic
          | some a =>
            match lookupAssoc a.counters v.measure with
            | none => .skip
            | some ac =>
              match render_markdown_row name bc ac with
              | none => .panic
              | some r => .row r

/-- One row of `render_markdown_self_diff_pretty` (src/main.rs lines
314-329), with the same panic/skip structure as `diffRowOutcome` but both
references inside the same `BenchData`. -/
def selfRowOutcome (data : BenchData) (c : Compare) (name : String) : RowOutcome :=
  match lookupAssoc data.bench_groups c.before.command with
  | none => .panic
  | some benches =>
    match benches[c.before.index]? with
    | none => .panic
    | some b =>
      match lookupAssoc b.counters c.measure with
      | none => .skip
      | some bc =>
        match lookupAssoc data.bench_groups c.after.command with
        | none => .panic
        | some benches2 =>
          match benches2[c.after.index]? with
          | none => .panic
          | some a =>
            match lookupAssoc a.counters c.measure with
            | none => .skip
            | some ac =>
              match render_markdown_row name bc ac with
              | none => .panic
              | some r => .row r

/-- Folds the per-row outcomes of one group: a panic aborts the whole
report, a skip omits the row, otherwise the row is kept in order. -/
def collectRows {α : Type} (f : String → α → RowOutcome) : List (String × α) →
    Option (List RenderedRow)
  | [] => some []
  | (n, x) :: rest =>
    match f n x with
    | .panic => none
    | .skip => collectRows f rest
    | .row r => (collectRows f rest).map fun l => r :: l

/-- `BenchData::render_markdown_diff_pretty` from src/main.rs, modelled as
the group/row structure it emits.  It first runs `assert_eq!` on the four
environment fields, then slices `&after.commit_hash[..7]` and
`&before.commit_hash[..7]` for the header — a byte slice that panics when
a hash is shorter than 7 bytes — and only then resolves the rows. -/
def render_markdown_diff_pretty (render : List (String × VersusOther))
    (before after : BenchData) : Option (List (String × List RenderedRow)) :=
  if before.arch = after.arch ∧ before.os = after.os ∧ before.runner = after.runner ∧
      before.cpu_model = after.cpu_model then
    if 7 ≤ after.commit_hash.utf8ByteSize ∧ 7 ≤ before.commit_hash.utf8ByteSize then
      render.mapM fun g =>
        (collectRows (fun name idx => diffRowOutcome before after g.2 name idx) g.2.rows).map
          fun rs => (g.1, rs)
    else none
  else none

/-- `BenchData::render_markdown_self_diff_pretty` from src/main.rs: no
environment assertion, but the header slices `&data.commit_hash[..7]`
before any row is resolved. -/
def render_markdown_self_diff_pretty (render : List (String × List (String × Compare)))
    (data : BenchData) : Option (List (String × List RenderedRow)) :=
  if 7 ≤ data.commit_hash.utf8ByteSize then
    render.mapM fun g =>
      (collectRows (fun name c => selfRowOutcome data c name) g.2).map fun rs => (g.1, rs)
  else none

/-- A small "before" run used as concrete input to the pretty diff
renderer: one group `g` with one command carrying a `cycles` counter. -/
def diffBeforeData : BenchData :=
  ⟨"0123456", 0, 0, "X64", "Linux", "runner1", "cpu0",
    [("g", [⟨["c1"], [("cycles", ⟨100, 1, 20, ""⟩)]⟩])]⟩

/-- The matching "after" run for `diffBeforeData`. -/
def diffAfterData : BenchData :=
  ⟨"abcdef0", 0, 0, "X64", "Linux", "runner1", "cpu0",
    [("g", [⟨["c1"], [("cycles", ⟨110, 1, 20, ""⟩)]⟩])]⟩

/-- A baseline run whose only counter is named `cycles` (undecorated). -/
def rawBaselineData : BenchData :=
  ⟨"0123456", 0, 0, "X64", "Linux", "runner1", "cpu0",
    [("g", [⟨["c1"], [("cycles", ⟨100, 1, 20, ""⟩)]⟩])]⟩

/-- A current run whose counter is namespaced but has no trailing slash:
`cpu_core/cycles`. -/
def rawCurrentNoSlash : BenchData :=
  ⟨"0123456", 0, 0, "X64", "Linux", "runner1", "cpu0",
    [("g", [⟨["c1"], [("cpu_core/cycles", ⟨110, 1, 20, ""⟩)]⟩])]⟩

/-- A current run whose counter is fully decorated: `cpu_core/cycles/`. -/
def rawCurrentSlash : BenchData :=
  ⟨"0123456", 0, 0, "X64", "Linux", "runner1", "cpu0",
    [("g", [⟨["c1"], [("cpu_core/cycles/", ⟨110, 1, 20, ""⟩)]⟩])]⟩

/-! ### Helper lemmas about the critical-value lookup -/

set_option maxRecDepth 10000 in
/-- For every `df ≥ 1` the table lookup succeeds and returns `statScore df`. -/
theorem get_stat_score_95_eq_statScore {df : ℕ} (h : 1 ≤ df) :
    get_stat_score_95 df = some (statScore df) := by
  rcases le_or_lt df 120 with h2 | h2
  · have key : ∀ d ∈ Finset.Icc 1 120, (get_stat_score_95 d).isSome = true := by decide
    have hs := key df (Finset.mem_Icc.mpr ⟨h, h2⟩)
    cases hg : get_stat_score_95 df with
    | none => rw [hg] at hs; simp at hs
    | some c => simp [statScore, hg]
  · have hne : ¬ df = 0 := by omega
    have h30 : ¬ df ≤ 30 := by omega
    have h120 : ¬ df ≤ 120 := by omega
    simp [get_stat_score_95, statScore, hne, h30, h120]

set_option maxRecDepth 10000 in
/-- Every successful critical-value lookup returns a positive value. -/
theorem statScore_pos {df : ℕ} (h : 1 ≤ df) : 0 < statScore df := by
  rcases le_or_lt df 120 with h2 | h2
  · have key : ∀ d ∈ Finset.Icc 1 120, 0 < statScore d := by decide
    exact key df (Finset.mem_Icc.mpr ⟨h, h2⟩)
  · have hne : ¬ df = 0 := by omega
    have h30 : ¬ df ≤ 30 := by omega
    have h120 : ¬ df ≤ 120 := by omega
    simp only [statScore, get_stat_score_95, if_neg hne, if_neg h30, if_neg h120,
      Option.getD_some]
    norm_num

/-- Comparing a nonnegative quotient with positive threshold is equivalent
to comparing the squares: the bridge between the source's
`t_statistic > threshold` over `f64` square roots and the rational model. -/
theorem lt_div_sqrt_mul_sqrt_iff {X A B c : ℝ} (hX : 0 ≤ X) (hA : 0 < A) (hB : 0 < B)
    (hc : 0 < c) :
    c < X / (Real.sqrt A * Real.sqrt B) ↔ c ^ 2 < X ^ 2 / (A * B) := by
  rw [← Real.sqrt_mul hA.le]
  have hAB : 0 < A * B := mul_pos hA hB
  have hs : 0 < Real.sqrt (A * B) := Real.sqrt_pos.mpr hAB
  rw [lt_div_iff₀ hs, lt_div_iff₀ hAB]
  have hssq : Real.sqrt (A * B) ^ 2 = A * B := Real.sq_sqrt hAB.le
  constructor
  · intro h
    have h0 : 0 ≤ c * Real.sqrt (A * B) := by positivity
    nlinarith [sq_nonneg (X - c * Real.sqrt (A * B))]
  · intro h
    by_contra hle
    push_neg at hle
    nlinarith [sq_nonneg (c * Real.sqrt (A * B) - X)]

/-- The degrees of freedom are symmetric in the two samples. -/
theorem t_df_comm (old new : BenchCounter) : t_df new old = t_df old new := by
  unfold t_df; omega

/-- The pooled variance is symmetric in the two samples. -/
theorem s_sqr_comm (old new : BenchCounter) : s_sqr new old = s_sqr old new := by
  unfold s_sqr
  rw [t_df_comm]
  ring_nf

/-- The squared standard error is symmetric in the two samples. -/
theorem se_sqr_comm (old new : BenchCounter) : se_sqr new old = se_sqr old new := by
  unfold se_sqr
  rw [s_sqr_comm]
  ring_nf

/-! ### The claims -/

/-- C1, counterexample: at old value 100 and new value 110 the code's
percentage is 100/11 (≈ 9.09), not `(new - old) / old * 100 = 10`: the
divisor is the new value, so the claim's formula fails at this input. -/
theorem claim1_percentage_counterexample :
    improvement_percentage ⟨100, 1, 20, ""⟩ ⟨110, 1, 20, ""⟩ = 100 / 11 ∧
    improvement_percentage ⟨100, 1, 20, ""⟩ ⟨110, 1, 20, ""⟩ ≠
      (((110 : ℚ) - 100) / 100) * 100 := by decide

/-- C1, amended: for every pair of counters the percentage-change
computation returns `(new.value - old.value) / new.value * 100`, percent
change relative to the NEW value; in particular for old value 100 and new
value 110 it returns 100/11 ≈ +9.09, not +10. -/
theorem claim1_percentage_divides_by_new :
    (∀ old new : BenchCounter,
        improvement_percentage old new = (new.value - old.value) / new.value * 100) ∧
    improvement_percentage ⟨100, 1, 20, ""⟩ ⟨110, 1, 20, ""⟩ = 100 / 11 :=
  ⟨fun _ _ => rfl, by decide⟩

/-- C2: for samples satisfying the data-model invariant `repetitions ≥ 1`,
with combined repetitions at least 3 and a nonzero pooled variance term
(so that the claim's quotient is well defined), `is_significant` returns
true exactly when `|new.value - old.value| / (s * sqrt(1/n1 + 1/n2))`
with `s = sqrt(((n1-1)·var1 + (n2-1)·var2) / df)` exceeds the 95%
two-tailed critical value for `df = n1 + n2 - 2`. -/
theorem claim2_is_significant_iff_t_test (old new : BenchCounter)
    (h1 : 1 ≤ old.repetitions) (h2 : 1 ≤ new.repetitions)
    (h3 : 3 ≤ old.repetitions + new.repetitions)
    (hp : 0 < ((old.repetitions : ℚ) - 1) * old.variance +
        ((new.repetitions : ℚ) - 1) * new.variance) :
    is_significant old new = some true ↔
      |(new.value : ℝ) - (old.value : ℝ)| /
          (Real.sqrt ((((old.repetitions : ℝ) - 1) * (old.variance : ℝ) +
                ((new.repetitions : ℝ) - 1) * (new.variance : ℝ)) /
              ((old.repetitions + new.repetitions - 2 : ℕ) : ℝ)) *
            Real.sqrt (1 / (old.repetitions : ℝ) + 1 / (new.repetitions : ℝ))) >
        ((statScore (old.repetitions + new.repetitions - 2) : ℚ) : ℝ) := by
  have hdf : 1 ≤ t_df old new := by unfold t_df; omega
  have hc := get_stat_score_95_eq_statScore hdf
  have hcpos := statScore_pos hdf
  have hdfQ : (0 : ℚ) < (t_df old new : ℚ) := by exact_mod_cast hdf
  have hsq : 0 < s_sqr old new := div_pos hp hdfQ
  have hn1 : (0 : ℚ) < (old.repetitions : ℚ) := by exact_mod_cast h1
  have hn2 : (0 : ℚ) < (new.repetitions : ℚ) := by exact_mod_cast h2
  have hB : (0 : ℚ) < 1 / (old.repetitions : ℚ) + 1 / (new.repetitions : ℚ) := by positivity
  have hse : 0 < se_sqr old new := mul_pos hsq hB
  rw [is_significant, hc, Option.map_some']
  rw [if_neg (not_lt.mpr hsq.le), if_neg hse.ne']
  rw [Option.some_inj, decide_eq_true_iff]
  set c : ℚ := statScore (t_df old new) with hcdef
  have cast_iff :
      (c ^ 2 < (new.value - old.value) ^ 2 / se_sqr old new) ↔
        (((c : ℚ) : ℝ) ^ 2 <
          ((new.value : ℝ) - (old.value : ℝ)) ^ 2 /
            (((s_sqr old new : ℚ) : ℝ) *
              ((1 / (old.repetitions : ℚ) + 1 / (new.repetitions : ℚ) : ℚ) : ℝ))) := by
    rw [← Rat.cast_lt (K := ℝ)]
    push_cast [se_sqr]
    ring_nf
  have hA : (0 : ℝ) < ((s_sqr old new : ℚ) : ℝ) := by exact_mod_cast hsq
  have hBr : (0 : ℝ) <
      ((1 / (old.repetitions : ℚ) + 1 / (new.repetitions : ℚ) : ℚ) : ℝ) := by
    exact_mod_cast hB
  have hcr : (0 : ℝ) < ((c : ℚ) : ℝ) := by exact_mod_cast hcpos
  have hX : (0 : ℝ) ≤ |(new.value : ℝ) - (old.value : ℝ)| := abs_nonneg _
  have key := lt_div_sqrt_mul_sqrt_iff hX hA hBr hcr
  rw [sq_abs] at key
  have hAeq : ((s_sqr old new : ℚ) : ℝ) =
      (((old.repetitions : ℝ) - 1) * (old.variance : ℝ) +
          ((new.repetitions : ℝ) - 1) * (new.variance : ℝ)) /
        ((old.repetitions + new.repetitions - 2 : ℕ) : ℝ) := by
    push_cast [s_sqr, t_df]
    ring
  have hBeq : ((1 / (old.repetitions : ℚ) + 1 / (new.repetitions : ℚ) : ℚ) : ℝ) =
      1 / (old.repetitions : ℝ) + 1 / (new.repetitions : ℝ) := by push_cast; ring
  rw [hAeq, hBeq] at key
  rw [gt_iff_lt, cast_iff, hAeq, hBeq]
  exact key.symm

/-- C2, witness: the spec's own example, baseline (100, variance 1, 20
repetitions) versus current (110, variance 1, 20 repetitions). -/
theorem claim2_is_significant_iff_t_test_witness :
    is_significant ⟨100, 1, 20, ""⟩ ⟨110, 1, 20, ""⟩ = some true ↔
      |((110 : ℚ) : ℝ) - ((100 : ℚ) : ℝ)| /
          (Real.sqrt (((((20 : ℕ) : ℝ) - 1) * ((1 : ℚ) : ℝ) +
                (((20 : ℕ) : ℝ) - 1) * ((1 : ℚ) : ℝ)) / ((20 + 20 - 2 : ℕ) : ℝ)) *
            Real.sqrt (1 / ((20 : ℕ) : ℝ) + 1 / ((20 : ℕ) : ℝ))) >
        ((statScore (20 + 20 - 2) : ℚ) : ℝ) :=
  claim2_is_significant_iff_t_test ⟨100, 1, 20, ""⟩ ⟨110, 1, 20, ""⟩
    (by decide) (by decide) (by decide) (by norm_num)

/-- C3: with one repetition on each side (`df = 0`) the code does NOT
return "not significant": the table lookup underflows its index and
panics (`none` in the model), contradicting the spec's requirement to
degrade to false. -/
theorem claim3_df_zero_panics :
    is_significant ⟨100, 0, 1, "msec"⟩ ⟨100, 0, 1, "msec"⟩ = none ∧
    get_stat_score_95 0 = none := by decide

/-- C4: a comparison row whose command/group name is unknown, or whose row
index is out of range, panics the whole pretty report (`none`), instead of
being skipped; only a missing metric name is skipped (the group renders
with no rows and the report survives). -/
theorem claim4_unresolved_reference_panics :
    render_markdown_diff_pretty [("G", ⟨"cycles", "nope", [("r0", 0)]⟩)]
        diffBeforeData diffAfterData = none ∧
    render_markdown_diff_pretty [("G", ⟨"cycles", "g", [("r0", 5)]⟩)]
        diffBeforeData diffAfterData = none ∧
    render_markdown_diff_pretty [("G", ⟨"absent", "g", [("r0", 0)]⟩)]
        diffBeforeData diffAfterData = some [("G", [])] := by decide

/-- C5: the lookup is NOT non-increasing: the table entries for df = 28
and df = 29 are 2.045 and 2.048 (transposed relative to the Student's-t
table, which has 2.048 then 2.045), so the critical value increases from
df 28 to df 29. -/
theorem claim5_table_not_monotone_at_28 :
    get_stat_score_95 28 = some 2.045 ∧ get_stat_score_95 29 = some 2.048 ∧
    statScore 28 < statScore 29 := by decide

/-- C6, counterexample: swapping the arguments does not negate the
percentage: with values 100 and 110 the swapped call returns -10 while
the negated original is -100/11. -/
theorem claim6_swap_counterexample :
    improvement_percentage ⟨110, 1, 20, ""⟩ ⟨100, 1, 20, ""⟩ = -10 ∧
    improvement_percentage ⟨100, 1, 20, ""⟩ ⟨110, 1, 20, ""⟩ = 100 / 11 ∧
    improvement_percentage ⟨110, 1, 20, ""⟩ ⟨100, 1, 20, ""⟩ ≠
      -improvement_percentage ⟨100, 1, 20, ""⟩ ⟨110, 1, 20, ""⟩ := by decide

/-- C6, amended: swapping the arguments preserves the boolean result of
`is_significant` for every pair; it negates the percentage only when the
two values are equal (the divisor follows the second argument, so in
general the swapped percentage is not the negation). -/
theorem claim6_swap_significance_symmetric (old new : BenchCounter) :
    is_significant new old = is_significant old new ∧
    (old.value = new.value →
      improvement_percentage new old = -improvement_percentage old new) := by
  constructor
  · unfold is_significant
    rw [t_df_comm, s_sqr_comm, se_sqr_comm]
    congr 1
    funext threshold
    rw [show (old.value - new.value) ^ 2 = (new.value - old.value) ^ 2 from by ring]
    rw [decide_eq_decide.mpr
      (show old.value - new.value ≠ 0 ↔ new.value - old.value ≠ 0 from by
        constructor <;> (intro h hc; exact h (by linarith)))]
  · intro h
    unfold improvement_percentage
    rw [h]
    ring

/-- C6, witness: two counters with equal values 5 but different variances
and repetition counts. -/
theorem claim6_swap_significance_symmetric_witness :
    is_significant ⟨5, 2, 3, ""⟩ ⟨5, 1, 2, ""⟩ = is_significant ⟨5, 1, 2, ""⟩ ⟨5, 2, 3, ""⟩ ∧
    improvement_percentage ⟨5, 2, 3, ""⟩ ⟨5, 1, 2, ""⟩ =
      -improvement_percentage ⟨5, 1, 2, ""⟩ ⟨5, 2, 3, ""⟩ :=
  ⟨(claim6_swap_significance_symmetric ⟨5, 1, 2, ""⟩ ⟨5, 2, 3, ""⟩).1,
   (claim6_swap_significance_symmetric ⟨5, 1, 2, ""⟩ ⟨5, 2, 3, ""⟩).2 rfl⟩

/-- C7, counterexample: for baseline value 100 and current value 110 the
raw-dump delta is +10 while the pretty-table percentage is 100/11, and the
two differ even up to sign — the two call sites do not use the same
function of (old value, new value). -/
theorem claim7_conventions_counterexample :
    rawDelta 100 110 = 10 ∧
    improvement_percentage ⟨100, 1, 20, ""⟩ ⟨110, 1, 20, ""⟩ = 100 / 11 ∧
    (10 : ℚ) ≠ 100 / 11 ∧ (10 : ℚ) ≠ -(100 / 11) := by decide

/-- C7, amended: the two call sites use two different conventions: the
raw-dump delta is `(new - old) / old * 100` (old-value divisor) while the
pretty-table percentage is `(new - old) / new * 100` (new-value divisor). -/
theorem claim7_two_conventions :
    (∀ prev cur : ℚ, rawDelta prev cur = (cur - prev) / prev * 100) ∧
    (∀ old new : BenchCounter,
        improvement_percentage old new = (new.value - old.value) / new.value * 100) := by
  refine ⟨fun prev cur => ?_, fun _ _ => rfl⟩
  unfold rawDelta
  split <;> ring

/-- C8: whenever any of the four environment fields differ, both the raw
dump against a baseline and the pretty diff table abort (`none`) instead
of rendering. -/
theorem claim8_env_mismatch_aborts (data prev : BenchData)
    (render : List (String × VersusOther))
    (h : data.arch ≠ prev.arch ∨ data.os ≠ prev.os ∨ data.runner ≠ prev.runner ∨
      data.cpu_model ≠ prev.cpu_model) :
    render_markdown_raw data (some prev) = none ∧
    render_markdown_diff_pretty render prev data = none := by
  constructor
  · simp only [render_markdown_raw]
    rw [if_neg]
    rintro ⟨h1, h2, h3, h4⟩
    rcases h with h | h | h | h <;> exact h (by assumption)
  · unfold render_markdown_diff_pretty
    rw [if_neg]
    rintro ⟨h1, h2, h3, h4⟩
    rcases h with h | h | h | h <;> exact h (Eq.symm (by assumption))

/-- C8, witness: two runs differing only in architecture. -/
theorem claim8_env_mismatch_aborts_witness :
    render_markdown_raw ⟨"0123456", 0, 0, "X64", "Linux", "r", "c", []⟩
        (some ⟨"0123456", 0, 0, "ARM64", "Linux", "r", "c", []⟩) = none ∧
    render_markdown_diff_pretty [] ⟨"0123456", 0, 0, "ARM64", "Linux", "r", "c", []⟩
        ⟨"0123456", 0, 0, "X64", "Linux", "r", "c", []⟩ = none :=
  claim8_env_mismatch_aborts _ _ [] (Or.inl (by decide))

/-- C9, counterexample: a current-run counter named `cpu_core/cycles`
(namespace prefix but no trailing slash) is NOT looked up under the
stripped name: the rendered delta cell is empty (`none`) although the
baseline does carry the metric under the claim's stripped name `cycles`. -/
theorem claim9_stripping_counterexample :
    render_markdown_raw rawCurrentNoSlash (some rawBaselineData) =
      some [("g", [(["c1"], [.present ⟨110, 1, 20, ""⟩ none])])] ∧
    lookupAssoc [("cycles", (⟨100, 1, 20, ""⟩ : BenchCounter))]
      (specStrippedKey "cpu_core/cycles") = some ⟨100, 1, 20, ""⟩ ∧
    baselineKey "cpu_core/cycles" ≠ specStrippedKey "cpu_core/cycles" := by decide

/-- C9, amended: the baseline metric key is the fully stripped name only
when the prefix-stripped name still ends in a slash; otherwise the
original counter name is used unchanged (the prefix-stripping is
discarded).  In particular the decorated name `cpu_core/cycles/` does
match a baseline counter named `cycles`, and the baseline row itself is
matched by exact argv equality (the rendered delta below comes from the
bench with the equal `cmd`). -/
theorem claim9_baseline_key_amended :
    (∀ counter : String,
        baselineKey counter =
          if endsSlash (stripPfx "cpu_core/" counter) then specStrippedKey counter
          else counter) ∧
    baselineKey "cpu_core/cycles/" = "cycles" ∧
    render_markdown_raw rawCurrentSlash (some rawBaselineData) =
      some [("g", [(["c1"], [.present ⟨110, 1, 20, ""⟩ (some 10)])])] := by
  refine ⟨fun counter => ?_, by decide, by decide⟩
  unfold baselineKey specStrippedKey
  dsimp only
  split <;> rfl

/-- C10: a commit hash shorter than 7 bytes makes both pretty renderers
panic (`none`) before any row is rendered. -/
theorem claim10_short_hash_panics :
    (∀ (render : List (String × VersusOther)) (before after : BenchData),
        after.commit_hash.utf8ByteSize < 7 ∨ before.commit_hash.utf8ByteSize < 7 →
        render_markdown_diff_pretty render before after = none) ∧
    (∀ (render : List (String × List (String × Compare))) (data : BenchData),
        data.commit_hash.utf8ByteSize < 7 →
        render_markdown_self_diff_pretty render data = none) := by
  constructor
  · intro render before after h
    unfold render_markdown_diff_pretty
    split_ifs with h1 h2 <;> first | rfl | omega
  · intro render data h
    unfold render_markdown_self_diff_pretty
    split_ifs with h1 <;> first | rfl | omega

/-- C10, witness: the empty commit hash (0 bytes). -/
theorem claim10_short_hash_panics_witness :
    render_markdown_diff_pretty [] ⟨"", 0, 0, "a", "l", "r", "c", []⟩
        ⟨"", 0, 0, "a", "l", "r", "c", []⟩ = none ∧
    render_markdown_self_diff_pretty [] ⟨"", 0, 0, "a", "l", "r", "c", []⟩ = none :=
  ⟨claim10_short_hash_panics.1 [] _ _ (Or.inl (by decide)),
   claim10_short_hash_panics.2 [] _ (by decide)⟩

end Benchmarker
